import Mathlib

/-!
Verification of the flash-sale inventory engine.

The shared counter store holds a single key (product_stock) whose value is an
optional integer: `none` models an absent key.  Each Redis command the engine
issues is embedded as a pure state transformer on this store; the service
methods of app/inventory_service.py, the endpoint handlers of app/main.py and
the aggregation of scripts/attack.py are translated from the source on top of
these commands.
-/

/-- The shared counter store: the value of the product_stock key, or `none`
when the key is absent. -/
abbrev Store := Option Int

/-- Redis GET on the stock key: returns the stored value (`none` when the key
is absent) together with the store after the command, which it never changes. -/
def redisGet (s : Store) : Option Int × Store := (s, s)

/-- Redis SET on the stock key: unconditionally stores the given value. -/
def redisSet (v : Int) (_s : Store) : Store := some v

/-- Redis DECR on the stock key: decrements the value (an absent key is
treated as 0) and returns the new value together with the updated store. -/
def redisDecr (s : Store) : Int × Store :=
  ((s.getD 0) - 1, some ((s.getD 0) - 1))

/-- Read phase of InventoryService.purchase_item_unsafe: GET the key, then
turn the reply into an integer, an absent reply counting as 0
(stock = int(stock) if stock else 0). -/
def unsafeReadPhase (s : Store) : Int := ((redisGet s).1).getD 0

/-- Write phase of InventoryService.purchase_item_unsafe: given the stock
value observed at read time, if it is positive SET the key to that observed
value minus one — regardless of the store's value at write time — and report
success; otherwise leave the store untouched and report failure. -/
def unsafeWritePhase (stock : Int) (s : Store) : Bool × Store :=
  if stock > 0 then (true, redisSet (stock - 1) s) else (false, s)

/-- InventoryService.purchase_item_unsafe executed in isolation: the write
phase runs against the same store the read phase saw, with no interleaving. -/
def purchase_item_unsafe (s : Store) : Bool × Store :=
  unsafeWritePhase (unsafeReadPhase s) s

/-- The Lua script of InventoryService.purchase_item_safe: GET the key; if the
reply is present and its number is positive, DECR the key and return 1;
otherwise return 0.  The store runs the whole script as one atomic step. -/
def luaCheckAndDecr (s : Store) : Int × Store :=
  match redisGet s with
  | (some v, s1) => if 0 < v then (1, (redisDecr s1).2) else (0, s1)
  | (none, s1) => (0, s1)

/-- InventoryService.purchase_item_safe: evaluates the atomic script and
converts its integer result to a boolean with bool(result). -/
def purchase_item_safe (s : Store) : Bool × Store :=
  let r := luaCheckAndDecr s
  (r.1 != 0, r.2)

/-- InventoryService.reset_stock: SET the key to the given amount. -/
def reset_stock (amount : Int) (s : Store) : Store := redisSet amount s

/-- InventoryService.get_stock: GET the key and turn the reply into an
integer, an absent reply counting as 0; returns the value together with the
store after the call. -/
def get_stock (s : Store) : Int × Store :=
  let r := redisGet s
  (r.1.getD 0, r.2)

/-- A run of n purchase_item_safe attempts: each attempt is a single atomic
script execution, so any concurrent schedule of n attempts serializes to n
consecutive executions in some order, and since the attempts are identical
every order yields this same outcome.  Returns the number of successful
attempts and the final store. -/
def runSafeAttempts : Nat → Store → Nat × Store
  | 0, s => (0, s)
  | n + 1, s =>
    let r := purchase_item_safe s
    let rest := runSafeAttempts n r.2
    ((if r.1 then 1 else 0) + rest.1, rest.2)

/-- Consecutive calls of reset_stock with the same amount. -/
def iterateReset (amount : Int) : Nat → Store → Store
  | 0, s => s
  | n + 1, s => iterateReset amount n (reset_stock amount s)

/-- A store-connectivity failure raised by the redis client. -/
inductive StoreError
  | unavailable
deriving DecidableEq

/-- What a purchase endpoint handler of app/main.py produces: the success JSON
body, or a raised HTTPException carrying a status code and a detail string. -/
inductive EndpointOutcome
  | success (method : String)
  | httpException (status : Nat) (detail : String)
deriving DecidableEq

/-- The purchase/unsafe handler of app/main.py: awaits purchase_item_unsafe (a
store-connectivity fault raised by that call propagates unmodified, since the
handler installs no handler for it), raises HTTPException 400 Out of stock when
the call returns false, and returns the success body when it returns true. -/
def purchase_unsafe_endpoint (r : Except StoreError Bool) :
    Except StoreError EndpointOutcome :=
  match r with
  | Except.error e => Except.error e
  | Except.ok true => Except.ok (EndpointOutcome.success "unsafe")
  | Except.ok false => Except.ok (EndpointOutcome.httpException 400 "Out of stock")

/-- The purchase/safe handler of app/main.py: same shape as the unsafe handler
but over purchase_item_safe. -/
def purchase_safe_endpoint (r : Except StoreError Bool) :
    Except StoreError EndpointOutcome :=
  match r with
  | Except.error e => Except.error e
  | Except.ok true => Except.ok (EndpointOutcome.success "safe")
  | Except.ok false => Except.ok (EndpointOutcome.httpException 400 "Out of stock")

/-- Modelled from the spec: the Service Boundary's translation of a handler
outcome into a user-visible status code is framework behaviour that is not code
of this repository.  Per the spec, a raised HTTPException becomes a response
with its own status code and an uncaught store-connectivity fault becomes a
server-error-class 500 response. -/
def boundaryStatus (r : Except StoreError EndpointOutcome) : Nat :=
  match r with
  | Except.error _ => 500
  | Except.ok (EndpointOutcome.success _) => 200
  | Except.ok (EndpointOutcome.httpException st _) => st

/-- The stock/reset handler of app/main.py: resets the stock to the given
amount and reports that amount as new_stock; the handler performs no
validation of the amount beyond it being an integer. -/
def reset_stock_endpoint (amount : Int) (s : Store) : Int × Store :=
  (amount, reset_stock amount s)

/-- make_purchase of scripts/attack.py: the HTTP status code of one attempt;
`none` models a client-side exception (e.g. a connectivity failure), which the
function maps to 500. -/
def make_purchase (response : Option Nat) : Nat :=
  match response with
  | some st => st
  | none => 500

/-- The aggregation step of run_attack in scripts/attack.py: from the list of
per-attempt status codes and the final stock value it builds the run's
aggregate (successful_purchases, final_stock), where successful_purchases is
results.count(200); no other per-outcome count is kept. -/
def run_attack_aggregate (results : List Nat) (final : Int) : Nat × Int :=
  (results.count 200, final)

/-- Step lemma: one safe purchase on a positive stored stock succeeds and
decrements the value by one. -/
lemma purchase_item_safe_pos {v : Int} (h : 0 < v) :
    purchase_item_safe (some v) = (true, some (v - 1)) := by
  simp [purchase_item_safe, luaCheckAndDecr, redisGet, redisDecr, h]

/-- Step lemma: one safe purchase on a non-positive stored stock fails and
leaves the store unchanged. -/
lemma purchase_item_safe_nonpos {v : Int} (h : ¬ 0 < v) :
    purchase_item_safe (some v) = (false, some v) := by
  simp [purchase_item_safe, luaCheckAndDecr, redisGet, h]

/-- Step lemma: one safe purchase on an absent key fails and leaves the store
unchanged. -/
lemma purchase_item_safe_none : purchase_item_safe none = (false, none) := rfl

/-- Closed form of a run of safe attempts from a non-negative stock value. -/
lemma runSafeAttempts_closed (n : Nat) : ∀ v : Int, 0 ≤ v →
    runSafeAttempts n (some v) = (min n v.toNat, some (max (v - n) 0)) := by
  induction n with
  | zero =>
    intro v hv
    simp only [runSafeAttempts, Prod.mk.injEq]
    refine ⟨by omega, ?_⟩
    congr 1
    omega
  | succ n ih =>
    intro v hv
    by_cases hpos : 0 < v
    · have ihv := ih (v - 1) (by omega)
      simp only [runSafeAttempts, purchase_item_safe_pos hpos, ihv]
      simp only [Prod.mk.injEq, if_true]
      refine ⟨by omega, ?_⟩
      congr 1
      omega
    · have ihv := ih v hv
      simp only [runSafeAttempts, purchase_item_safe_nonpos hpos, ihv]
      simp only [Prod.mk.injEq, Bool.false_eq_true, if_false]
      refine ⟨by omega, ?_⟩
      congr 1
      omega

/-- C1: for any number of attempts n ≥ 0 and any initial stock v ≥ 0, after a
run of n concurrent purchase_item_safe attempts starting from v the number of
successful attempts equals min(n, v) and the final stock value equals
max(v - n, 0); the run is a function of n and v alone, hence deterministic. -/
theorem safe_run_exactness (n : Nat) (v : Int) (h : 0 ≤ v) :
    (runSafeAttempts n (some v)).1 = min n v.toNat ∧
    (runSafeAttempts n (some v)).2 = some (max (v - n) 0) := by
  rw [runSafeAttempts_closed n v h]
  exact ⟨rfl, rfl⟩

/-- Witness for C1 at n = 7 attempts and initial stock 3. -/
theorem safe_run_exactness_witness :
    0 ≤ (3 : Int) ∧
    ((runSafeAttempts 7 (some 3)).1 = min 7 (3 : Int).toNat ∧
     (runSafeAttempts 7 (some 3)).2 = some (max ((3 : Int) - (7 : Nat)) 0)) :=
  ⟨by decide, safe_run_exactness 7 3 (by decide)⟩

/-- C4: non-negativity of the stock value is an invariant of the safe path:
for every starting value v ≥ 0 and every sequence of purchase_item_safe
calls, the committed stock value never becomes negative. -/
theorem safe_stock_nonneg (n : Nat) (v w : Int) (hv : 0 ≤ v)
    (hw : (runSafeAttempts n (some v)).2 = some w) : 0 ≤ w := by
  rw [runSafeAttempts_closed n v hv] at hw
  have : max (v - n) 0 = w := by simpa using hw
  omega

/-- Witness for C4 at 5 attempts from initial stock 2. -/
theorem safe_stock_nonneg_witness :
    0 ≤ (2 : Int) ∧ (runSafeAttempts 5 (some 2)).2 = some 0 ∧ 0 ≤ (0 : Int) :=
  ⟨by decide, by decide, safe_stock_nonneg 5 2 0 (by decide) (by decide)⟩

/-- Auxiliary: at least one reset_stock leaves the key holding the amount. -/
lemma iterateReset_succ_eq (v : Int) :
    ∀ n : Nat, ∀ s : Store, iterateReset v (n + 1) s = some v := by
  intro n
  induction n with
  | zero => intro s; rfl
  | succ n ih => intro s; exact ih (reset_stock v s)

/-- C5: for every non-negative v and every prior store state, any positive
number of consecutive reset_stock v calls leaves the stock at exactly some v,
and get_stock immediately after returns v. -/
theorem reset_idempotent_roundtrip (v : Int) (hv : 0 ≤ v) (n : Nat)
    (hn : 1 ≤ n) (s : Store) :
    iterateReset v n s = some v ∧ (get_stock (iterateReset v n s)).1 = v := by
  obtain ⟨m, rfl⟩ : ∃ m, n = m + 1 := ⟨n - 1, by omega⟩
  rw [iterateReset_succ_eq v m s]
  exact ⟨rfl, rfl⟩

/-- Witness for C5: three consecutive resets to 7 from an absent key. -/
theorem reset_idempotent_roundtrip_witness :
    0 ≤ (7 : Int) ∧ 1 ≤ 3 ∧
    (iterateReset 7 3 none = some 7 ∧ (get_stock (iterateReset 7 3 none)).1 = 7) :=
  ⟨by decide, by decide, reset_idempotent_roundtrip 7 (by decide) 3 (by decide) none⟩

/-- C6: get_stock returns 0 when the counter key is absent and the stored
integer otherwise, and it leaves the store entirely unchanged. -/
theorem get_stock_spec (s : Store) :
    (get_stock s).1 = (match s with | some v => v | none => 0) ∧
    (get_stock s).2 = s := by
  rcases s with _ | v <;> exact ⟨rfl, rfl⟩

/-- C9: executed one call at a time with no interleaving, the unsafe and the
safe purchase methods agree on every store state: same returned boolean and
same final store. -/
theorem sequential_purchase_equiv (s : Store) :
    purchase_item_unsafe s = purchase_item_safe s := by
  rcases s with _ | v
  · rfl
  · by_cases h : 0 < v
    · rw [purchase_item_safe_pos h]
      simp [ purchase_item_unsafe, unsafeReadPhase, unsafeWritePhase, redisGet,
        redisSet, h]
    · rw [purchase_item_safe_nonpos h]
      simp [ purchase_item_unsafe, unsafeReadPhase, unsafeWritePhase, redisGet,
        redisSet, h]

/-- C10: the reset operation performs no validation of the amount: for every
integer a, including negative values, the endpoint sets the counter to a, and
get_stock immediately after returns a. -/
theorem reset_no_validation (a : Int) (s : Store) :
    (reset_stock_endpoint a s).2 = some a ∧
    (get_stock (reset_stock_endpoint a s).2).1 = a :=
  ⟨rfl, rfl⟩

/-- C2: a single purchase_item_safe call returns true iff the counter key is
present with a positive value; when it returns true the stored value is
decremented by exactly one, when it returns false the store is unchanged; and
after reset to 20 followed by five sequential safe purchases, get_stock
returns 15. -/
theorem safe_single_call_spec (s : Store) :
    ((purchase_item_safe s).1 = true ↔ ∃ v : Int, s = some v ∧ 0 < v) ∧
    (purchase_item_safe s).2 =
      (if 0 < (get_stock s).1 then some ((get_stock s).1 - 1) else s) ∧
    (get_stock (runSafeAttempts 5 (reset_stock 20 s)).2).1 = 15 := by
  refine ⟨?_, ?_, ?_⟩
  · rcases s with _ | v
    · simp [purchase_item_safe_none]
    · by_cases h : 0 < v
      · simp only [purchase_item_safe_pos h]
        simp only [true_iff]
        exact ⟨v, rfl, h⟩
      · simp only [purchase_item_safe_nonpos h]
        simp only [Bool.false_eq_true, false_iff]
        rintro ⟨w, hw, hwpos⟩
        cases hw
        exact h hwpos
  · rcases s with _ | v
    · rfl
    · by_cases h : 0 < v
      · rw [purchase_item_safe_pos h]
        simp [get_stock, redisGet, h]
      · rw [purchase_item_safe_nonpos h]
        simp [get_stock, redisGet, h]
  · show (get_stock (runSafeAttempts 5 (some 20)).2).1 = 15
    decide

/-- C3: purchase_item_unsafe returns true iff the value it reads at entry
(absent treated as 0) is positive; when true, its write phase stores exactly
that read value minus one whatever the store holds at write time; when false
it leaves the store unchanged. -/
theorem unsafe_single_call_spec (s t : Store) :
    (( purchase_item_unsafe s).1 = true ↔ 0 < unsafeReadPhase s) ∧
    (0 < unsafeReadPhase s →
      (unsafeWritePhase (unsafeReadPhase s) t).2 = some (unsafeReadPhase s - 1)) ∧
    (¬ 0 < unsafeReadPhase s → ( purchase_item_unsafe s).2 = s) := by
  refine ⟨?_, ?_, ?_⟩
  · by_cases h : 0 < unsafeReadPhase s
    · simp [ purchase_item_unsafe, unsafeWritePhase, h]
    · simp [ purchase_item_unsafe, unsafeWritePhase, h]
  · intro h
    simp [unsafeWritePhase, redisSet, h]
  · intro h
    simp [ purchase_item_unsafe, unsafeWritePhase, h]

/-- C7: each purchase endpoint raises the 400 Out of stock HTTPException
exactly when the purchase call returns false and returns the success body
exactly when it returns true; a store-connectivity fault propagates unmodified
out of the handler, and the boundary renders it as status 500, never equal to
the 400 out-of-stock status. -/
theorem purchase_endpoints_error_mapping (r : Except StoreError Bool)
    (e : StoreError) :
    (( purchase_unsafe_endpoint r) =
        Except.ok (EndpointOutcome.httpException 400 "Out of stock") ↔
      r = Except.ok false) ∧
    (( purchase_unsafe_endpoint r) = Except.ok (EndpointOutcome.success "unsafe") ↔
      r = Except.ok true) ∧
    (purchase_safe_endpoint r =
        Except.ok (EndpointOutcome.httpException 400 "Out of stock") ↔
      r = Except.ok false) ∧
    (purchase_safe_endpoint r = Except.ok (EndpointOutcome.success "safe") ↔
      r = Except.ok true) ∧
    ( purchase_unsafe_endpoint (Except.error e)) = Except.error e ∧
    purchase_safe_endpoint (Except.error e) = Except.error e ∧
    boundaryStatus ( purchase_unsafe_endpoint (Except.error e)) = 500 ∧
    boundaryStatus (purchase_safe_endpoint (Except.error e)) = 500 ∧
    boundaryStatus ( purchase_unsafe_endpoint (Except.ok false)) = 400 ∧
    boundaryStatus (purchase_safe_endpoint (Except.ok false)) = 400 ∧
    boundaryStatus ( purchase_unsafe_endpoint (Except.error e)) ≠
      boundaryStatus ( purchase_unsafe_endpoint (Except.ok false)) ∧
    boundaryStatus (purchase_safe_endpoint (Except.error e)) ≠
      boundaryStatus (purchase_safe_endpoint (Except.ok false)) := by
  cases e
  rcases r with e' | b
  · cases e'
    simp [ purchase_unsafe_endpoint, purchase_safe_endpoint, boundaryStatus]
  · cases b <;>
      simp [ purchase_unsafe_endpoint, purchase_safe_endpoint, boundaryStatus]

/-- C8 fails as stated: a connectivity-error attempt (a client-side exception,
which make_purchase maps to status 500) produces exactly the same aggregate in
run_attack as an out-of-stock attempt (status 400), so connectivity errors are
not tracked separately from the out-of-stock outcome in the run's aggregated
counts. -/
theorem attack_error_aggregation_counterexample :
    make_purchase none = 500 ∧
    run_attack_aggregate [make_purchase none] 0 = run_attack_aggregate [400] 0 := by
  decide

/-- C8 amended: a connectivity-error attempt is counted as neither a success
nor an out-of-stock response (it contributes nothing to the 200-count), but it
is not tracked separately: run_attack's aggregate keeps only the success count
and the final stock, and is identical whether the attempt failed with a
connectivity error or reported out of stock. -/
theorem attack_error_aggregation_amended (results : List Nat) (final : Int) :
    make_purchase none = 500 ∧
    (run_attack_aggregate (make_purchase none :: results) final).1 =
      (run_attack_aggregate results final).1 ∧
    run_attack_aggregate (make_purchase none :: results) final =
      run_attack_aggregate (400 :: results) final := by
  refine ⟨rfl, ?_, ?_⟩ <;>
    simp [run_attack_aggregate, make_purchase, List.count_cons]
